import Mathlib

/-!
Shallow embedding of the Tempo Walk interval-walk timer.

The authoritative controller is src/src/App.svelte: its reactive state
variables become the fields of AppState, and its functions become pure
state-transformers.  Scheduling handles (metronomeIntervalId,
countdownTimerId) are modelled by the single slot each of them is in the
source: an Option holding the scheduled interval duration for the
metronome, and a Bool for the 1-second countdown loop.  Audio playback is
modelled by the list of Click events an operation emits synchronously.
The older standalone variant src/unnamed/part_000 is embedded separately
in namespace P0 where a claim refers to it (its settings-change handler
and its gain curve, which differ from the current app).
-/

inductive Phase
  | slow
  | fast
  | ready
deriving DecidableEq

inductive Sound
  | tick
  | tack
deriving DecidableEq

structure Click where
  sound : Sound
  gain : ℚ
deriving DecidableEq

/-- The reactive state of App.svelte: the five persisted settings fields,
the workout-session fields, the audio-readiness flag, and the two timer
handles (metronome interval slot and countdown-loop slot). -/
structure AppState where
  slowBpm : ℤ
  slowDurationSeconds : ℤ
  fastBpm : ℤ
  fastDurationSeconds : ℤ
  volume : ℤ
  isPlaying : Bool
  isPaused : Bool
  currentPhase : Phase
  totalTime : ℤ
  remainingTime : ℤ
  isAudioReady : Bool
  metronomeIntervalMs : Option ℚ
  countdownActive : Bool
  beatCounter : ℤ
deriving DecidableEq

/-- App.svelte line 34: const beatsPerMeasure = 2. -/
def beatsPerMeasure : ℤ := 2

/-- App.svelte line 47: effectiveVolumeGain = Math.pow(volume / 100, 2). -/
def effectiveVolumeGain (volume : ℤ) : ℚ := ((volume : ℚ) / 100) ^ 2

/-- App.svelte playClick (lines 151-171): skipped silently when the audio
subsystem is not ready; otherwise selects tick on even beat parity and
tack on odd, emits one click at the current gain, and advances the beat
counter modulo beatsPerMeasure. -/
def playClick (s : AppState) : AppState × List Click :=
  if s.isAudioReady = false then (s, [])
  else
    let snd := if s.beatCounter % beatsPerMeasure = 0 then Sound.tick else Sound.tack
    ({ s with beatCounter := (s.beatCounter + 1) % beatsPerMeasure },
      [{ sound := snd, gain := effectiveVolumeGain s.volume }])

/-- App.svelte startMetronomeClicks (lines 174-182): clears any previous
interval handle, computes intervalDuration = (60 / bpm) * 1000 ms, resets
the beat counter to 0, plays one immediate click, then schedules the
periodic click at that interval. -/
def startMetronomeClicks (bpmToUse : ℚ) (s : AppState) : AppState × List Click :=
  let cleared := { s with metronomeIntervalMs := none }
  let intervalDuration : ℚ := (60 / bpmToUse) * 1000
  let reset := { cleared with beatCounter := 0 }
  let step := playClick reset
  ({ step.1 with metronomeIntervalMs := some intervalDuration }, step.2)

/-- App.svelte stopMetronomeClicks (lines 184-189): clears the interval
handle if one is scheduled. -/
def stopMetronomeClicks (s : AppState) : AppState :=
  { s with metronomeIntervalMs := none }

/-- App.svelte updatePhase (lines 192-212), the once-per-second tick: if
remainingTime has reached 0, flip the phase, load the new phase duration
and restart the metronome at the new phase bpm; then, if playing and not
paused, decrement remainingTime and increment totalTime; finally clamp
remainingTime at 0. -/
def updatePhase (s : AppState) : AppState × List Click :=
  let step :=
    if s.remainingTime ≤ 0 then
      if s.currentPhase = Phase.slow then
        startMetronomeClicks (s.fastBpm : ℚ)
          { s with currentPhase := Phase.fast, remainingTime := s.fastDurationSeconds }
      else
        startMetronomeClicks (s.slowBpm : ℚ)
          { s with currentPhase := Phase.slow, remainingTime := s.slowDurationSeconds }
    else (s, [])
  let s1 := step.1
  let s2 :=
    if s1.isPlaying && !s1.isPaused then
      { s1 with remainingTime := s1.remainingTime - 1, totalTime := s1.totalTime + 1 }
    else s1
  let s3 := if s2.remainingTime < 0 then { s2 with remainingTime := 0 } else s2
  (s3, step.2)

/-- The state reached by one tick, discarding the emitted clicks. -/
def tick1 (s : AppState) : AppState := (updatePhase s).1

/-- The discriminated outcome of handleStart: the three early returns of
the source (audio-resume failure, audio not ready, validation failure)
and the successful start or resume. -/
inductive StartResult
  | ok
  | resumeFailed
  | audioNotReady
  | validationFailed
deriving DecidableEq

/-- App.svelte handleStart lines 238-251: the rejection condition on the
settings read at start time (the isNaN guards of the source are vacuous
over the integer model). -/
def startValidationFails (s : AppState) : Bool :=
  s.slowBpm < 40 || s.slowBpm > 240 ||
  s.slowDurationSeconds < 10 || s.slowDurationSeconds > 300 ||
  s.fastBpm < 40 || s.fastBpm > 240 ||
  s.fastDurationSeconds < 10 || s.fastDurationSeconds > 300

/-- App.svelte handleStart (lines 214-274).  resumeOk models the outcome
of the awaited audioContext.resume call on a suspended context; when it
fails the source shows a message and returns with no state change.  Then
the audio-ready gate, then validation, then either the resume branch
(isPaused: keep phase and remainingTime, restart the metronome at the
current phase bpm) or the new-start branch (phase := slow, remainingTime
:= slowDurationSeconds, metronome at slowBpm); both restart the countdown
loop. -/
def handleStart (resumeOk : Bool) (s : AppState) : AppState × StartResult × List Click :=
  if resumeOk = false then (s, StartResult.resumeFailed, [])
  else if s.isAudioReady = false then (s, StartResult.audioNotReady, [])
  else if startValidationFails s then (s, StartResult.validationFailed, [])
  else if s.isPaused then
    let s1 := { s with isPaused := false, isPlaying := true }
    let step := startMetronomeClicks
      (if s1.currentPhase = Phase.slow then (s1.slowBpm : ℚ) else (s1.fastBpm : ℚ)) s1
    ({ step.1 with countdownActive := true }, StartResult.ok, step.2)
  else
    let s1 := { s with
      isPlaying := true,
      isPaused := false,
      currentPhase := Phase.slow,
      remainingTime := s.slowDurationSeconds }
    let step := startMetronomeClicks (s1.slowBpm : ℚ) s1
    ({ step.1 with countdownActive := true }, StartResult.ok, step.2)

/-- App.svelte handlePause (lines 276-287): early return when not playing;
otherwise set paused, clear playing, stop the metronome and the countdown
loop, leaving phase and remainingTime untouched. -/
def handlePause (s : AppState) : AppState :=
  if s.isPlaying = false then s
  else
    let s1 := stopMetronomeClicks { s with isPaused := true, isPlaying := false }
    { s1 with countdownActive := false }

/-- App.svelte handleStop (lines 289-303): unconditionally clear playing
and paused, stop the metronome and countdown loop, and reset phase,
remainingTime, beatCounter and totalTime. -/
def handleStop (s : AppState) : AppState :=
  let s1 := stopMetronomeClicks { s with isPlaying := false, isPaused := false }
  { s1 with
    countdownActive := false,
    currentPhase := Phase.ready,
    remainingTime := 0,
    beatCounter := 0,
    totalTime := 0 }

/-- The state of a freshly loaded app with the given settings values:
App.svelte lines 14-34 initialise the session fields exactly so. -/
def initialState (sb sd fb fd vol : ℤ) (ready : Bool) : AppState :=
  { slowBpm := sb, slowDurationSeconds := sd, fastBpm := fb, fastDurationSeconds := fd,
    volume := vol, isPlaying := false, isPaused := false, currentPhase := Phase.ready,
    totalTime := 0, remainingTime := 0, isAudioReady := ready, metronomeIntervalMs := none,
    countdownActive := false, beatCounter := 0 }

/-- In the current App.svelte an edit of a settings field is a plain
update of the bound reactive variable (PhaseSettings.svelte binds bpm and
durationSeconds with bindable props); the only reaction is the debounced
settings save of lines 311-320, which touches no workout-session state.
One operation per editable WorkoutConfig field. -/
def editSlowBpm (v : ℤ) (s : AppState) : AppState := { s with slowBpm := v }

/-- Edit of the slow-phase duration field (see editSlowBpm). -/
def editSlowDurationSeconds (v : ℤ) (s : AppState) : AppState :=
  { s with slowDurationSeconds := v }

/-- Edit of the fast-phase bpm field (see editSlowBpm). -/
def editFastBpm (v : ℤ) (s : AppState) : AppState := { s with fastBpm := v }

/-- Edit of the fast-phase duration field (see editSlowBpm). -/
def editFastDurationSeconds (v : ℤ) (s : AppState) : AppState :=
  { s with fastDurationSeconds := v }

namespace P0

/-- The reactive state of the older standalone variant
src/unnamed/part_000: durations are kept in minutes and there is no
totalTime field. -/
structure State where
  slowBpm : ℤ
  slowDurationMinutes : ℤ
  fastBpm : ℤ
  fastDurationMinutes : ℤ
  volume : ℤ
  isPlaying : Bool
  isPaused : Bool
  currentPhase : Phase
  remainingTime : ℤ
  isAudioReady : Bool
  metronomeIntervalMs : Option ℚ
  countdownActive : Bool
  beatCounter : ℤ
deriving DecidableEq

/-- part_000 line 38: effectiveVolumeGain = Math.pow(volume / 100, 2) * 2. -/
def effectiveVolumeGain (volume : ℤ) : ℚ := ((volume : ℚ) / 100) ^ 2 * 2

/-- part_000 stopMetronomeClicks (lines 126-131). -/
def stopMetronomeClicks (s : State) : State := { s with metronomeIntervalMs := none }

/-- part_000 stopIntervalWalk (lines 238-251). -/
def stopIntervalWalk (s : State) : State :=
  let s1 := stopMetronomeClicks { s with isPlaying := false, isPaused := false }
  { s1 with
    countdownActive := false,
    currentPhase := Phase.ready,
    remainingTime := 0,
    beatCounter := 0 }

/-- part_000 handleWorkoutSettingChange (lines 254-259): when a BPM or
duration field is edited while playing or paused, stop the walk and show
one message.  The returned list holds the messages surfaced by the call. -/
def handleWorkoutSettingChange (s : State) : State × List String :=
  if s.isPlaying || s.isPaused then
    (stopIntervalWalk s, ["Settings changed. Press Start to begin new workout."])
  else (s, [])

end P0

/-- A concrete running session used to instantiate theorems: the state
after a successful start from a fresh app with slow = 60 bpm for 10 s and
fast = 120 bpm for 10 s. -/
def runningExample : AppState :=
  (handleStart true (initialState 60 10 120 10 60 true)).1

/-- A concrete paused-variant state used to instantiate theorems about
part_000: a slow-phase session mid-walk. -/
def pExample : P0.State :=
  { slowBpm := 60, slowDurationMinutes := 3, fastBpm := 120, fastDurationMinutes := 3,
    volume := 60, isPlaying := true, isPaused := false, currentPhase := Phase.slow,
    remainingTime := 100, isAudioReady := true, metronomeIntervalMs := some 1000,
    countdownActive := true, beatCounter := 1 }

set_option maxRecDepth 100000

/-- C1: the claim says tick number slow.durationSeconds performs the
slow-to-fast transition, leaving phase = Fast and remainingSeconds =
fast.durationSeconds.  The code disagrees: with slow = 60 bpm for 10 s
and fast = 120 bpm for 10 s, after exactly 10 ticks the state is still
phase = Slow with remainingSeconds = 0, and only the 11th tick performs
the transition, after which remainingSeconds = 9 (the decrement of the
same tick eats the first second of the new phase).  This theorem
evaluates updatePhase at that failing input. -/
theorem c1_tick_transition_needs_extra_tick :
    (tick1^[10] runningExample).currentPhase = Phase.slow ∧
    (tick1^[10] runningExample).remainingTime = 0 ∧
    (tick1^[10] runningExample).isPlaying = true ∧
    (tick1^[11] runningExample).currentPhase = Phase.fast ∧
    (tick1^[11] runningExample).remainingTime = 9 := by
  decide

/-- C6: handleStop from any state yields phase = Ready, runMode Stopped
(isPlaying and isPaused both false), remainingSeconds = 0 and beat parity
0, with both schedules cancelled; indeed it yields exactly the state of a
freshly loaded app with the same settings, so it is idempotent and a
start after stop is the same operation as a start from a fresh app. -/
theorem c6_stop_resets_everything (s : AppState) (r : Bool) :
    handleStop s = initialState s.slowBpm s.slowDurationSeconds s.fastBpm
      s.fastDurationSeconds s.volume s.isAudioReady ∧
    (handleStop s).currentPhase = Phase.ready ∧
    (handleStop s).isPlaying = false ∧
    (handleStop s).isPaused = false ∧
    (handleStop s).remainingTime = 0 ∧
    (handleStop s).beatCounter = 0 ∧
    (handleStop s).metronomeIntervalMs = none ∧
    handleStop (handleStop s) = handleStop s ∧
    handleStart r (handleStop s) = handleStart r (initialState s.slowBpm
      s.slowDurationSeconds s.fastBpm s.fastDurationSeconds s.volume s.isAudioReady) := by
  exact ⟨rfl, rfl, rfl, rfl, rfl, rfl, rfl, rfl, rfl⟩

/-- C8: the gain curve of App.svelte is (volume/100)^2 with scale
constant 1, and the one of part_000 is (volume/100)^2 * 2 with scale
constant 2; both vanish at 0, are strictly increasing on the integer
range 0..100, and reach their scale constant at 100. -/
theorem c8_gain_curve :
    effectiveVolumeGain 0 = 0 ∧ effectiveVolumeGain 100 = 1 ∧
    (∀ a b : ℤ, 0 ≤ a → a < b → b ≤ 100 →
      effectiveVolumeGain a < effectiveVolumeGain b) ∧
    P0.effectiveVolumeGain 0 = 0 ∧ P0.effectiveVolumeGain 100 = 2 ∧
    (∀ a b : ℤ, 0 ≤ a → a < b → b ≤ 100 →
      P0.effectiveVolumeGain a < P0.effectiveVolumeGain b) := by
  have key : ∀ a b : ℤ, 0 ≤ a → a < b → ((a : ℚ) / 100) ^ 2 < ((b : ℚ) / 100) ^ 2 := by
    intro a b ha hab
    have ha2 : (0 : ℚ) ≤ (a : ℚ) := by exact_mod_cast ha
    have hab2 : (a : ℚ) < (b : ℚ) := by exact_mod_cast hab
    have h1 : (a : ℚ) / 100 < (b : ℚ) / 100 := by linarith
    have h2 : (0 : ℚ) ≤ (a : ℚ) / 100 := by linarith
    exact pow_lt_pow_left₀ h1 h2 (by norm_num)
  refine ⟨by norm_num [effectiveVolumeGain], by norm_num [effectiveVolumeGain],
    ?_, by norm_num [P0.effectiveVolumeGain], by norm_num [P0.effectiveVolumeGain], ?_⟩
  · intro a b ha hab _
    exact key a b ha hab
  · intro a b ha hab _
    have := key a b ha hab
    unfold P0.effectiveVolumeGain
    linarith

/-- C8 witness: the strict-increase clauses applied at volumes 25 and 50. -/
theorem c8_gain_curve_witness :
    effectiveVolumeGain 25 < effectiveVolumeGain 50 ∧
    P0.effectiveVolumeGain 25 < P0.effectiveVolumeGain 50 :=
  ⟨c8_gain_curve.2.2.1 25 50 (by norm_num) (by norm_num) (by norm_num),
   c8_gain_curve.2.2.2.2.2 25 50 (by norm_num) (by norm_num) (by norm_num)⟩

/-- C7: startMetronomeClicks leaves exactly the new schedule of
(60 / bpm) * 1000 ms in the single interval slot whatever was scheduled
before, resets beat parity and emits one immediate click with the
even-parity (tick) sound when the audio subsystem is ready, leaving the
parity at 1; stopMetronomeClicks cancels the schedule and is idempotent. -/
theorem c7_metronome_contract (bpm : ℚ) (s : AppState) (h : s.isAudioReady = true) :
    (startMetronomeClicks bpm s).1.metronomeIntervalMs = some ((60 / bpm) * 1000) ∧
    (startMetronomeClicks bpm s).2 =
      [{ sound := Sound.tick, gain := effectiveVolumeGain s.volume }] ∧
    (startMetronomeClicks bpm s).1.beatCounter = 1 ∧
    stopMetronomeClicks (stopMetronomeClicks s) = stopMetronomeClicks s ∧
    (stopMetronomeClicks s).metronomeIntervalMs = none := by
  refine ⟨rfl, ?_, ?_, rfl, rfl⟩ <;>
    simp [startMetronomeClicks, playClick, beatsPerMeasure, h]

/-- C7 witness: the metronome contract at 120 bpm on the example running
state. -/
theorem c7_metronome_contract_witness :
    (startMetronomeClicks 120 runningExample).1.metronomeIntervalMs =
      some ((60 / 120) * 1000) ∧
    (startMetronomeClicks 120 runningExample).2 =
      [{ sound := Sound.tick, gain := effectiveVolumeGain runningExample.volume }] ∧
    (startMetronomeClicks 120 runningExample).1.beatCounter = 1 ∧
    stopMetronomeClicks (stopMetronomeClicks runningExample) =
      stopMetronomeClicks runningExample ∧
    (stopMetronomeClicks runningExample).metronomeIntervalMs = none :=
  c7_metronome_contract 120 runningExample (by decide)

/-- C4: with the audio subsystem ready, handleStart rejects with
ValidationFailed and no state change whenever any settings field sits at
one of the just-outside values 39, 241 (bpm) or 9, 301 (duration), and
with every field inside the closed ranges 40..240 and 10..300 it is not
rejected: the result is ok. -/
theorem c4_validation_boundaries (s : AppState) (hready : s.isAudioReady = true) :
    ((s.slowBpm = 39 ∨ s.slowBpm = 241 ∨ s.fastBpm = 39 ∨ s.fastBpm = 241 ∨
      s.slowDurationSeconds = 9 ∨ s.slowDurationSeconds = 301 ∨
      s.fastDurationSeconds = 9 ∨ s.fastDurationSeconds = 301) →
      handleStart true s = (s, StartResult.validationFailed, [])) ∧
    ((40 ≤ s.slowBpm ∧ s.slowBpm ≤ 240 ∧ 40 ≤ s.fastBpm ∧ s.fastBpm ≤ 240 ∧
      10 ≤ s.slowDurationSeconds ∧ s.slowDurationSeconds ≤ 300 ∧
      10 ≤ s.fastDurationSeconds ∧ s.fastDurationSeconds ≤ 300) →
      (handleStart true s).2.1 = StartResult.ok) := by
  constructor
  · intro h
    have hval : startValidationFails s = true := by
      simp only [startValidationFails, Bool.or_eq_true, decide_eq_true_eq]
      omega
    simp [handleStart, hready, hval]
  · intro h
    have hval : startValidationFails s = false := by
      simp only [startValidationFails, Bool.or_eq_false_iff, decide_eq_false_iff_not]
      omega
    cases hp : s.isPaused <;> simp [handleStart, hready, hval, hp]

/-- C4 witness: a config with slowBpm = 39 is rejected with no state
change, and a config sitting exactly on the four boundary values is
accepted. -/
theorem c4_validation_boundaries_witness :
    handleStart true (initialState 39 10 120 10 60 true) =
      (initialState 39 10 120 10 60 true, StartResult.validationFailed, []) ∧
    (handleStart true (initialState 40 300 240 10 60 true)).2.1 = StartResult.ok :=
  ⟨(c4_validation_boundaries (initialState 39 10 120 10 60 true) rfl).1 (Or.inl rfl),
   (c4_validation_boundaries (initialState 40 300 240 10 60 true) rfl).2 (by decide)⟩

/-- C5: from a non-paused state with audio ready and a config passing
validation, handleStart yields phase = Slow, remainingSeconds =
slow.durationSeconds, runMode Running, the metronome scheduled at the
slow tempo with one immediate click, and result ok. -/
theorem c5_start_from_ready (s : AppState) (hready : s.isAudioReady = true)
    (hp : s.isPaused = false) (hv : startValidationFails s = false) :
    (handleStart true s).1.currentPhase = Phase.slow ∧
    (handleStart true s).1.remainingTime = s.slowDurationSeconds ∧
    (handleStart true s).1.isPlaying = true ∧
    (handleStart true s).1.isPaused = false ∧
    (handleStart true s).1.metronomeIntervalMs = some ((60 / (s.slowBpm : ℚ)) * 1000) ∧
    (handleStart true s).2.1 = StartResult.ok ∧
    (handleStart true s).2.2 =
      [{ sound := Sound.tick, gain := effectiveVolumeGain s.volume }] := by
  simp [handleStart, hready, hp, hv, startMetronomeClicks, playClick, beatsPerMeasure]

/-- C5 witness: the start contract on a fresh app with slow = 60 bpm for
10 s and fast = 120 bpm for 10 s. -/
theorem c5_start_from_ready_witness :
    (handleStart true (initialState 60 10 120 10 60 true)).1.currentPhase = Phase.slow ∧
    (handleStart true (initialState 60 10 120 10 60 true)).1.remainingTime =
      (initialState 60 10 120 10 60 true).slowDurationSeconds ∧
    (handleStart true (initialState 60 10 120 10 60 true)).1.isPlaying = true ∧
    (handleStart true (initialState 60 10 120 10 60 true)).1.isPaused = false ∧
    (handleStart true (initialState 60 10 120 10 60 true)).1.metronomeIntervalMs =
      some ((60 / ((initialState 60 10 120 10 60 true).slowBpm : ℚ)) * 1000) ∧
    (handleStart true (initialState 60 10 120 10 60 true)).2.1 = StartResult.ok ∧
    (handleStart true (initialState 60 10 120 10 60 true)).2.2 =
      [{ sound := Sound.tick,
         gain := effectiveVolumeGain (initialState 60 10 120 10 60 true).volume }] :=
  c5_start_from_ready (initialState 60 10 120 10 60 true) rfl rfl (by decide)

/-- C9: handleStart invoked while already Running (playing and not
paused) is not rejected and does not resume: it takes the same new-start
branch as a start from Ready, resetting phase = Slow and remainingSeconds
= slow.durationSeconds and scheduling the metronome at the slow tempo,
discarding the in-flight phase and countdown. -/
theorem c9_start_while_running (s : AppState) (hplay : s.isPlaying = true)
    (hp : s.isPaused = false) (hready : s.isAudioReady = true)
    (hv : startValidationFails s = false) :
    (handleStart true s).2.1 = StartResult.ok ∧
    (handleStart true s).1.currentPhase = Phase.slow ∧
    (handleStart true s).1.remainingTime = s.slowDurationSeconds ∧
    (handleStart true s).1.isPlaying = true ∧
    (handleStart true s).1.isPaused = false ∧
    (handleStart true s).1.metronomeIntervalMs = some ((60 / (s.slowBpm : ℚ)) * 1000) := by
  simp [handleStart, hready, hp, hv, startMetronomeClicks, playClick, beatsPerMeasure]

/-- C9 witness: restarting mid-session resets the countdown; the example
running state after three ticks restarts to remainingSeconds = 10. -/
theorem c9_start_while_running_witness :
    (handleStart true (tick1^[3] runningExample)).2.1 = StartResult.ok ∧
    (handleStart true (tick1^[3] runningExample)).1.currentPhase = Phase.slow ∧
    (handleStart true (tick1^[3] runningExample)).1.remainingTime =
      (tick1^[3] runningExample).slowDurationSeconds ∧
    (handleStart true (tick1^[3] runningExample)).1.isPlaying = true ∧
    (handleStart true (tick1^[3] runningExample)).1.isPaused = false ∧
    (handleStart true (tick1^[3] runningExample)).1.metronomeIntervalMs =
      some ((60 / ((tick1^[3] runningExample).slowBpm : ℚ)) * 1000) :=
  c9_start_while_running (tick1^[3] runningExample) (by decide) (by decide)
    (by decide) (by decide)

/-- C10: a tick taken while playing and not paused increments totalTime
by exactly 1 and one taken otherwise leaves it unchanged; handlePause
never changes it and handleStop resets it to 0. -/
theorem c10_total_time_counter (s : AppState) :
    (s.isPlaying = true → s.isPaused = false → (tick1 s).totalTime = s.totalTime + 1) ∧
    (s.isPlaying = false ∨ s.isPaused = true → (tick1 s).totalTime = s.totalTime) ∧
    (handlePause s).totalTime = s.totalTime ∧
    (handleStop s).totalTime = 0 := by
  have hstep : ∀ t : AppState,
      ((updatePhase t).1.totalTime = if t.isPlaying && !t.isPaused then t.totalTime + 1
        else t.totalTime) ∧
      (updatePhase t).1.isPlaying = t.isPlaying := by
    intro t
    by_cases hr : t.remainingTime ≤ 0 <;>
      by_cases hph : t.currentPhase = Phase.slow <;>
        by_cases ha : t.isAudioReady = false <;>
          by_cases hpp : t.isPlaying && !t.isPaused <;>
            simp [updatePhase, startMetronomeClicks, playClick, beatsPerMeasure,
              hr, hph, ha, hpp] <;>
              split <;> simp
  refine ⟨?_, ?_, ?_, rfl⟩
  · intro h1 h2
    have := (hstep s).1
    simp [tick1, h1, h2] at this ⊢
    exact this
  · intro h
    have := (hstep s).1
    rcases h with h | h <;> simp [tick1, h] at this ⊢ <;> exact this
  · by_cases h : s.isPlaying = false <;> simp [handlePause, h, stopMetronomeClicks]

/-- C10 witness: three ticks of the example running session count
totalTime 3; pausing keeps it at 3 and stopping resets it to 0. -/
theorem c10_total_time_counter_witness :
    ((tick1 (tick1^[2] runningExample)).totalTime = (tick1^[2] runningExample).totalTime + 1) ∧
    (tick1 (handlePause (tick1^[2] runningExample))).totalTime =
      (handlePause (tick1^[2] runningExample)).totalTime ∧
    (handlePause (tick1^[2] runningExample)).totalTime =
      (tick1^[2] runningExample).totalTime ∧
    (handleStop (tick1^[2] runningExample)).totalTime = 0 :=
  ⟨(c10_total_time_counter (tick1^[2] runningExample)).1 (by decide) (by decide),
   (c10_total_time_counter (handlePause (tick1^[2] runningExample))).2.1 (Or.inl (by decide)),
   (c10_total_time_counter (tick1^[2] runningExample)).2.2.1,
   (c10_total_time_counter (tick1^[2] runningExample)).2.2.2⟩

/-- C2 counterexample: the claim says editing a config field while
runMode is Running forces runMode = Stopped with one transient message.
In the current App.svelte an edit of a bound settings field only updates
the field and triggers the debounced save, which touches no session
state: editing slowBpm on a running session leaves it Running. -/
theorem c2_edit_leaves_session_running :
    (editSlowBpm 90 runningExample).isPlaying = true ∧
    (editSlowBpm 90 runningExample).isPaused = false ∧
    (editSlowBpm 90 runningExample).currentPhase = Phase.slow ∧
    (editSlowBpm 90 runningExample).slowBpm = 90 := by
  decide

/-- C2 (amended): in the current App.svelte an edit of a config field
while Running or Paused is applied but leaves runMode, phase and
remainingSeconds untouched and surfaces no message; the claimed
behaviour holds in the part_000 variant, whose handleWorkoutSettingChange
forces runMode = Stopped and phase = Ready and surfaces exactly one
transient message whenever isPlaying or isPaused. -/
theorem c2_edit_behavior (v : ℤ) (s : AppState) (p : P0.State)
    (h : p.isPlaying = true ∨ p.isPaused = true) :
    (editSlowBpm v s).isPlaying = s.isPlaying ∧
    (editSlowBpm v s).isPaused = s.isPaused ∧
    (editSlowBpm v s).currentPhase = s.currentPhase ∧
    (editSlowBpm v s).remainingTime = s.remainingTime ∧
    (editSlowBpm v s).slowBpm = v ∧
    (editSlowDurationSeconds v s).isPlaying = s.isPlaying ∧
    (editSlowDurationSeconds v s).isPaused = s.isPaused ∧
    (editSlowDurationSeconds v s).currentPhase = s.currentPhase ∧
    (editSlowDurationSeconds v s).remainingTime = s.remainingTime ∧
    (editSlowDurationSeconds v s).slowDurationSeconds = v ∧
    (editFastBpm v s).isPlaying = s.isPlaying ∧
    (editFastBpm v s).isPaused = s.isPaused ∧
    (editFastBpm v s).currentPhase = s.currentPhase ∧
    (editFastBpm v s).remainingTime = s.remainingTime ∧
    (editFastBpm v s).fastBpm = v ∧
    (editFastDurationSeconds v s).isPlaying = s.isPlaying ∧
    (editFastDurationSeconds v s).isPaused = s.isPaused ∧
    (editFastDurationSeconds v s).currentPhase = s.currentPhase ∧
    (editFastDurationSeconds v s).remainingTime = s.remainingTime ∧
    (editFastDurationSeconds v s).fastDurationSeconds = v ∧
    (P0.handleWorkoutSettingChange p).1.isPlaying = false ∧
    (P0.handleWorkoutSettingChange p).1.isPaused = false ∧
    (P0.handleWorkoutSettingChange p).1.currentPhase = Phase.ready ∧
    (P0.handleWorkoutSettingChange p).1.remainingTime = 0 ∧
    (P0.handleWorkoutSettingChange p).2.length = 1 := by
  have hc : (p.isPlaying || p.isPaused) = true := by
    rcases h with h | h <;> simp [h]
  simp [editSlowBpm, editSlowDurationSeconds, editFastBpm, editFastDurationSeconds,
    P0.handleWorkoutSettingChange, P0.stopIntervalWalk, P0.stopMetronomeClicks, hc]

/-- C2 witness: the amended behaviour at an edit of each of the four
settings fields to 90 on the example running state of the current app,
and on a playing part_000 state. -/
theorem c2_edit_behavior_witness :
    (editSlowBpm 90 runningExample).isPlaying = runningExample.isPlaying ∧
    (editSlowBpm 90 runningExample).isPaused = runningExample.isPaused ∧
    (editSlowBpm 90 runningExample).currentPhase = runningExample.currentPhase ∧
    (editSlowBpm 90 runningExample).remainingTime = runningExample.remainingTime ∧
    (editSlowBpm 90 runningExample).slowBpm = 90 ∧
    (editSlowDurationSeconds 90 runningExample).isPlaying = runningExample.isPlaying ∧
    (editSlowDurationSeconds 90 runningExample).isPaused = runningExample.isPaused ∧
    (editSlowDurationSeconds 90 runningExample).currentPhase =
      runningExample.currentPhase ∧
    (editSlowDurationSeconds 90 runningExample).remainingTime =
      runningExample.remainingTime ∧
    (editSlowDurationSeconds 90 runningExample).slowDurationSeconds = 90 ∧
    (editFastBpm 90 runningExample).isPlaying = runningExample.isPlaying ∧
    (editFastBpm 90 runningExample).isPaused = runningExample.isPaused ∧
    (editFastBpm 90 runningExample).currentPhase = runningExample.currentPhase ∧
    (editFastBpm 90 runningExample).remainingTime = runningExample.remainingTime ∧
    (editFastBpm 90 runningExample).fastBpm = 90 ∧
    (editFastDurationSeconds 90 runningExample).isPlaying = runningExample.isPlaying ∧
    (editFastDurationSeconds 90 runningExample).isPaused = runningExample.isPaused ∧
    (editFastDurationSeconds 90 runningExample).currentPhase =
      runningExample.currentPhase ∧
    (editFastDurationSeconds 90 runningExample).remainingTime =
      runningExample.remainingTime ∧
    (editFastDurationSeconds 90 runningExample).fastDurationSeconds = 90 ∧
    (P0.handleWorkoutSettingChange pExample).1.isPlaying = false ∧
    (P0.handleWorkoutSettingChange pExample).1.isPaused = false ∧
    (P0.handleWorkoutSettingChange pExample).1.currentPhase = Phase.ready ∧
    (P0.handleWorkoutSettingChange pExample).1.remainingTime = 0 ∧
    (P0.handleWorkoutSettingChange pExample).2.length = 1 :=
  c2_edit_behavior 90 runningExample pExample (Or.inl rfl)

/-- Pausing touches no settings field, so the start-time validation
outcome is unchanged by it. -/
theorem handlePause_startValidationFails (s : AppState) :
    startValidationFails (handlePause s) = startValidationFails s := by
  by_cases h : s.isPlaying = false <;>
    simp [handlePause, h, stopMetronomeClicks, startValidationFails]

/-- C3: handlePause on a non-Running state changes nothing at all; on a
Running state it freezes phase and remainingSeconds exactly, cancels the
metronome and countdown schedules, and a subsequent handleStart resumes
with exactly that phase and remainingSeconds and schedules the metronome
at the tempo configured for that phase, not the other phase. -/
theorem c3_pause_resume (s : AppState) (hv : startValidationFails s = false) :
    (s.isPlaying = false → handlePause s = s) ∧
    (s.isPlaying = true → s.isAudioReady = true →
      (handlePause s).currentPhase = s.currentPhase ∧
      (handlePause s).remainingTime = s.remainingTime ∧
      (handlePause s).isPaused = true ∧
      (handlePause s).isPlaying = false ∧
      (handlePause s).totalTime = s.totalTime ∧
      (handlePause s).metronomeIntervalMs = none ∧
      (handlePause s).countdownActive = false ∧
      (handleStart true (handlePause s)).1.currentPhase = s.currentPhase ∧
      (handleStart true (handlePause s)).1.remainingTime = s.remainingTime ∧
      (handleStart true (handlePause s)).1.isPlaying = true ∧
      (handleStart true (handlePause s)).1.isPaused = false ∧
      (handleStart true (handlePause s)).2.1 = StartResult.ok ∧
      (handleStart true (handlePause s)).1.metronomeIntervalMs =
        some ((60 / (if s.currentPhase = Phase.slow then (s.slowBpm : ℚ)
          else (s.fastBpm : ℚ))) * 1000)) := by
  constructor
  · intro h
    simp [handlePause, h]
  · intro hp ha
    have hv2 : startValidationFails (handlePause s) = false :=
      (handlePause_startValidationFails s).trans hv
    simp [handlePause, hp, stopMetronomeClicks, ha] at hv2
    simp [handleStart, handlePause, hp, stopMetronomeClicks,
      startMetronomeClicks, playClick, beatsPerMeasure, ha, hv2]

/-- C3 witness: pausing the example running session freezes phase Slow
with 10 s remaining, and resuming restores both and schedules the
metronome at the slow tempo. -/
theorem c3_pause_resume_witness :
    (handlePause runningExample).currentPhase = runningExample.currentPhase ∧
    (handlePause runningExample).remainingTime = runningExample.remainingTime ∧
    (handlePause runningExample).isPaused = true ∧
    (handlePause runningExample).isPlaying = false ∧
    (handlePause runningExample).totalTime = runningExample.totalTime ∧
    (handlePause runningExample).metronomeIntervalMs = none ∧
    (handlePause runningExample).countdownActive = false ∧
    (handleStart true (handlePause runningExample)).1.currentPhase =
      runningExample.currentPhase ∧
    (handleStart true (handlePause runningExample)).1.remainingTime =
      runningExample.remainingTime ∧
    (handleStart true (handlePause runningExample)).1.isPlaying = true ∧
    (handleStart true (handlePause runningExample)).1.isPaused = false ∧
    (handleStart true (handlePause runningExample)).2.1 = StartResult.ok ∧
    (handleStart true (handlePause runningExample)).1.metronomeIntervalMs =
      some ((60 / (if runningExample.currentPhase = Phase.slow
        then (runningExample.slowBpm : ℚ) else (runningExample.fastBpm : ℚ))) * 1000) :=
  (c3_pause_resume runningExample (by decide)).2 (by decide) (by decide)
